import Mathlib

/-!
# Verification of the 1D cellular-automaton core of `simulations`

Shallow embedding of the rule engine, simulation runner, start-condition
library, simulation catalog and the viewport renderer's view-state
arithmetic from `src/src/simulations.ts`.  JS number arithmetic on view
coordinates is modelled exactly over `ℚ`; JS arrays of booleans are
`List Bool`; JS array aliasing (needed for the frame claim about
`runSimulation`'s row 0) is made explicit with a small heap of arrays
addressed by natural-number references.
-/

namespace Simulations

/-! ## Rule engine (`createRule`, `applyRule`, `computeNextGeneration`, `runSimulation`) -/

/-- `Rule` record: `{ number, name, pattern }`. -/
structure Rule where
  number : Nat
  name : String
  pattern : List Bool
deriving DecidableEq

/-- `createRule(ruleNumber)`: builds the 8-entry lookup table,
`pattern[i] = ((ruleNumber >> i) & 1) === 1`.  JS `>>` acts on the 32-bit
image of the operand, hence the `% 2 ^ 32` (for the claimed non-negative
integers, bit `i` of the 32-bit image is bit `i` of the number for `i < 32`,
whatever the sign bit, so this models `ToInt32` faithfully for bits 0..7). -/
def createRule (ruleNumber : Nat) : Rule :=
  { number := ruleNumber
    name := "Rule " ++ toString ruleNumber
    pattern := (List.range 8).map fun i => (((ruleNumber % 2 ^ 32) >>> i) &&& 1) == 1 }

/-- `applyRule(rule, left, center, right)`: indexes the pattern at
`4*left + 2*center + right`.  The source's `rule.pattern[index]!` asserts
the lookup is defined; reading past the end is modelled by the `getD`
default (claim C10 proves the default branch is unreachable for rules
built by `createRule`). -/
def applyRule (rule : Rule) (left center right : Bool) : Bool :=
  let index := (if left then 4 else 0) + (if center then 2 else 0) + (if right then 1 else 0)
  rule.pattern.getD index false

/-- `computeNextGeneration(rule, currentRow)`: loop over `i < width` with
fixed/dead boundaries (`left`/`right` are `false` past the row ends). -/
def computeNextGeneration (rule : Rule) (currentRow : List Bool) : List Bool :=
  let width := currentRow.length
  (List.range width).map fun i =>
    let left := if i > 0 then currentRow.getD (i - 1) false else false
    let center := currentRow.getD i false
    let right := if i < width - 1 then currentRow.getD (i + 1) false else false
    applyRule rule left center right

/-- The `for` loop of `runSimulation`: starting from `currentRow`, push
`steps` successive generations. -/
def runSimulationLoop (rule : Rule) (currentRow : List Bool) : Nat → List (List Bool)
  | 0 => []
  | n + 1 =>
    let next := computeNextGeneration rule currentRow
    next :: runSimulationLoop rule next n

/-- `runSimulation(rule, initialRow, steps)`: `grid = [initialRow]`, then
`steps` iterations each pushing `computeNextGeneration` of the previous row. -/
def runSimulation (rule : Rule) (initialRow : List Bool) (steps : Nat) : List (List Bool) :=
  initialRow :: runSimulationLoop rule initialRow steps

example : (createRule 110).pattern = [false, true, true, true, false, true, true, false] := by
  decide

example : computeNextGeneration (createRule 110) [true] = [applyRule (createRule 110) false true false] := by
  decide

example : (runSimulation (createRule 110) [false, true, false] 2).length = 3 := by decide

/-! ## Start conditions -/

/-- JS indexed assignment `row[i] = v` on an array: in bounds it overwrites;
past the end it extends the array to length `i + 1` (the intermediate holes
read back as falsy, modelled as `false`). -/
def jsArraySet (row : List Bool) (i : Nat) (v : Bool) : List Bool :=
  if i < row.length then row.set i v
  else row ++ List.replicate (i - row.length) false ++ [v]

/-- `StartCondition` record: a named seed-row generator. -/
structure StartCondition where
  name : String
  generate : Nat → List Bool

/-- The `Single Cell` start condition: `new Array(width).fill(false)` then
`row[Math.floor(width / 2)] = true`. -/
def singleCell : StartCondition :=
  { name := "Single Cell"
    generate := fun width => jsArraySet (List.replicate width false) (width / 2) true }

example : singleCell.generate 5 = [false, false, true, false, false] := by decide

/-! ## Simulation catalog

The catalog entries bind a rule, a start condition and a default step
count under a string id.  The `startCondition` field of the source holds a
generator closure (several draw from `Math.random()`); the catalog claims
only ever compare ids, so the entry here carries the bound condition's
display name in `startConditionName` in its stead, alongside every other
field verbatim. -/

/-- `Simulation` catalog entry. -/
structure Simulation where
  id : String
  name : String
  description : String
  rule : Rule
  startConditionName : String
  defaultSteps : Nat
deriving DecidableEq

/-- The module-level `simulations` array, all fifteen entries in source order. -/
def simulations : List Simulation :=
  [ { id := "rule110-gliders", name := "Rule 110 - Gliders"
      description := "Best for seeing gliders emerge from sparse random start"
      rule := createRule 110, startConditionName := "Random (25%)", defaultSteps := 800 }
  , { id := "rule110-seeds", name := "Rule 110 - Glider Seeds"
      description := "Specific patterns that produce interacting gliders"
      rule := createRule 110, startConditionName := "Glider Seeds", defaultSteps := 1000 }
  , { id := "rule110-collision", name := "Rule 110 - Particle Collision"
      description := "Two particle sources creating head-on collisions"
      rule := createRule 110, startConditionName := "Particle Collision", defaultSteps := 1200 }
  , { id := "rule110-beam", name := "Rule 110 - Particle Beam"
      description := "Stream of particles moving left, interacting"
      rule := createRule 110, startConditionName := "Particle Beam", defaultSteps := 800 }
  , { id := "rule110-gun", name := "Rule 110 - Particle Gun"
      description := "Pattern that emits periodic glider streams"
      rule := createRule 110, startConditionName := "Particle Gun", defaultSteps := 1000 }
  , { id := "rule110-multi", name := "Rule 110 - Multi Collision"
      description := "Multiple collision sites across the grid"
      rule := createRule 110, startConditionName := "Multi Collision", defaultSteps := 800 }
  , { id := "rule110-edge", name := "Rule 110 - Edge Start"
      description := "Gliders emerging from right edge, moving left"
      rule := createRule 110, startConditionName := "Right Edge", defaultSteps := 600 }
  , { id := "rule110-single", name := "Rule 110 - Single Cell"
      description := "Classic triangular growth pattern"
      rule := createRule 110, startConditionName := "Single Cell", defaultSteps := 500 }
  , { id := "rule110-random", name := "Rule 110 - Dense Random"
      description := "Rule 110 with 50% random - chaotic interaction"
      rule := createRule 110, startConditionName := "Random (50%)", defaultSteps := 500 }
  , { id := "rule30-single", name := "Rule 30 - Single Cell"
      description := "Chaotic rule used for randomness generation"
      rule := createRule 30, startConditionName := "Single Cell", defaultSteps := 500 }
  , { id := "rule90-single", name := "Rule 90 - Single Cell"
      description := "Produces Sierpinski triangle pattern"
      rule := createRule 90, startConditionName := "Single Cell", defaultSteps := 500 }
  , { id := "rule184-random", name := "Rule 184 - Traffic Flow"
      description := "Models traffic flow and particle dynamics"
      rule := createRule 184, startConditionName := "Random (10%)", defaultSteps := 500 }
  , { id := "rule54-single", name := "Rule 54 - Single Cell"
      description := "Complex behavior with triangular patterns"
      rule := createRule 54, startConditionName := "Single Cell", defaultSteps := 500 }
  , { id := "rule150-alternating", name := "Rule 150 - Alternating"
      description := "XOR-based rule with interesting patterns"
      rule := createRule 150, startConditionName := "Alternating", defaultSteps := 500 }
  , { id := "rule22-single", name := "Rule 22 - Single Cell"
      description := "Creates nested triangular structures"
      rule := createRule 22, startConditionName := "Single Cell", defaultSteps := 500 } ]

/-- `getSimulation(id)`: `simulations.find((s) => s.id === id)` — a total
lookup returning the first matching entry, `none` when no id matches.  The
catalog itself is a module constant the lookup never mutates. -/
def getSimulation (id : String) : Option Simulation :=
  simulations.find? fun s => s.id == id

example : (getSimulation "rule30-single").isSome := by decide
example : getSimulation "nope" = none := by decide

/-! ## Viewport renderer: view state

The renderer's pan/zoom camera.  View arithmetic (`+`, `-`, `*`, `/`,
`min`, `max`) is modelled exactly over `ℚ`. -/

/-- `ViewState` record: `{ offsetX, offsetY, scale }`. -/
structure ViewState where
  offsetX : ℚ
  offsetY : ℚ
  scale : ℚ
deriving DecidableEq

/-- The canvas's CSS bounding rectangle, as far as the view math reads it
(`rect.width`, `rect.height`; pointer coordinates are taken relative to
its corner). -/
structure CanvasRect where
  width : ℚ
  height : ℚ
deriving DecidableEq

/-- `Renderer.setScale(scale)`: records the world point under the canvas
center, clamps the requested scale to `[0.1, 100]`
(`Math.max(0.1, Math.min(100, scale))`), and solves the offsets so that
world point stays at the canvas center. -/
def setScale (rect : CanvasRect) (view : ViewState) (scale : ℚ) : ViewState :=
  let centerX := rect.width / 2
  let centerY := rect.height / 2
  let worldX := (centerX - view.offsetX) / view.scale
  let worldY := (centerY - view.offsetY) / view.scale
  let newScale := max (1 / 10) (min 100 scale)
  { offsetX := centerX - worldX * newScale
    offsetY := centerY - worldY * newScale
    scale := newScale }

/-- `Renderer.handleWheel`: zoom anchored at the pointer position
(`mouseX`, `mouseY` are the client coordinates minus the canvas corner);
zoom factor `0.9` for `deltaY > 0`, else `1.1`; scale clamped to
`[0.1, 100]`. -/
def handleWheel (view : ViewState) (mouseX mouseY deltaY : ℚ) : ViewState :=
  let worldX := (mouseX - view.offsetX) / view.scale
  let worldY := (mouseY - view.offsetY) / view.scale
  let zoomFactor : ℚ := if deltaY > 0 then 9 / 10 else 11 / 10
  let newScale := max (1 / 10) (min 100 (view.scale * zoomFactor))
  { offsetX := mouseX - worldX * newScale
    offsetY := mouseY - worldY * newScale
    scale := newScale }

/-- `Renderer.handleMouseMove` while dragging (pan): translates the
offsets by the pointer delta; the scale is untouched. -/
def handleMouseMove (view : ViewState) (dx dy : ℚ) : ViewState :=
  { view with offsetX := view.offsetX + dx, offsetY := view.offsetY + dy }

/-- `Renderer.centerView()`: no-op on an empty grid; otherwise fits the
grid into 90% of the canvas, `scale = Math.min(scaleX, scaleY, 10)`
(note: no lower clamp), and centers the scaled grid. -/
def centerView (rect : CanvasRect) (gridWidth gridHeight : Nat) (view : ViewState) : ViewState :=
  if gridWidth = 0 ∨ gridHeight = 0 then view
  else
    let scaleX := rect.width * (9 / 10) / (gridWidth : ℚ)
    let scaleY := rect.height * (9 / 10) / (gridHeight : ℚ)
    let scale := min (min scaleX scaleY) 10
    let scaledWidth := (gridWidth : ℚ) * scale
    let scaledHeight := (gridHeight : ℚ) * scale
    { offsetX := (rect.width - scaledWidth) / 2
      offsetY := (rect.height - scaledHeight) / 2
      scale := scale }

/-! ## Viewport renderer: grid state -/

/-- The renderer fields the grid claims read: tracked grid dimensions,
whether a GPU texture has been created, and the view.  WebGL calls are
modelled by their effect on this state; `render()` leaves it unchanged and
issues a draw only per `renderDraws` below. -/
structure RendererState where
  gridWidth : Nat
  gridHeight : Nat
  hasTexture : Bool
  view : ViewState
deriving DecidableEq

/-- The texture byte buffer `setGrid` uploads:
`data[y * gridWidth + x] = row[x] ? 255 : 0`. -/
def textureData (grid : List (List Bool)) (w h : Nat) : List Nat :=
  (List.range h).flatMap fun y =>
    (List.range w).map fun x => if (grid.getD y []).getD x false then 255 else 0

/-- `Renderer.setGrid(grid)`: on `grid.length === 0` it zeroes both tracked
dimensions and returns at once; otherwise it records
`gridHeight = grid.length`, `gridWidth = grid[0]?.length ?? 0`, creates the
texture if needed, uploads `textureData`, and calls `render()`.  The
returned flag is `true` exactly when that upload-and-render tail ran. -/
def setGrid (st : RendererState) (grid : List (List Bool)) : RendererState × Bool :=
  if grid.length = 0 then
    ({ st with gridWidth := 0, gridHeight := 0 }, false)
  else
    let h := grid.length
    let w := (grid.head?.map List.length).getD 0
    ({ st with gridWidth := w, gridHeight := h, hasTexture := true }, true)

/-- `Renderer.render()` never mutates the tracked state; it clears the
canvas and issues the textured draw only when both grid dimensions are
nonzero and the texture exists (`if (gridWidth === 0 || gridHeight === 0
|| !texture) return`). -/
def renderDraws (st : RendererState) : Bool :=
  !(st.gridWidth == 0 || st.gridHeight == 0 || !st.hasTexture)

/-- `Renderer.centerView()` acting on the whole tracked state. -/
def centerViewState (rect : CanvasRect) (st : RendererState) : RendererState :=
  { st with view := centerView rect st.gridWidth st.gridHeight st.view }

/-- `Renderer.getGridSize()`: `{ width: gridWidth, height: gridHeight }`. -/
def getGridSize (st : RendererState) : Nat × Nat :=
  (st.gridWidth, st.gridHeight)

/-! ## JS array aliasing model for `runSimulation`

`runSimulation` builds `grid = [initialRow]` — the caller's array object
itself, not a copy.  To state what aliasing means, rows live on a heap of
arrays addressed by allocation order, and the grid is a list of
references. -/

/-- A heap of JS boolean arrays; a reference is an index into `arrays`. -/
structure Heap where
  arrays : List (List Bool)
deriving DecidableEq

/-- Dereference: read the array a reference denotes. -/
def Heap.read (h : Heap) (r : Nat) : List Bool :=
  h.arrays.getD r []

/-- Allocate a fresh array, returning the new heap and its reference. -/
def Heap.alloc (h : Heap) (v : List Bool) : Heap × Nat :=
  (⟨h.arrays ++ [v]⟩, h.arrays.length)

/-- Mutate the array a reference denotes (the caller overwriting its own
array in place). -/
def Heap.write (h : Heap) (r : Nat) (v : List Bool) : Heap :=
  ⟨h.arrays.set r v⟩

/-- The loop of `runSimulation` with explicit references: each iteration
reads the current row, allocates the fresh array
`computeNextGeneration` returns (`nextRow = new Array(width)`), and pushes
its reference. -/
def runSimulationRefLoop (rule : Rule) (h : Heap) (current : Nat) :
    Nat → Heap × List Nat
  | 0 => (h, [])
  | n + 1 =>
    let next := computeNextGeneration rule (h.read current)
    let alloc := h.alloc next
    let rest := runSimulationRefLoop rule alloc.1 alloc.2 n
    (rest.1, alloc.2 :: rest.2)

/-- `runSimulation` with explicit references: `grid = [initialRow]` stores
the caller's reference itself, then the loop appends the freshly allocated
generations. -/
def runSimulationRef (rule : Rule) (h : Heap) (initialRow : Nat) (steps : Nat) :
    Heap × List Nat :=
  let res := runSimulationRefLoop rule h initialRow steps
  (res.1, initialRow :: res.2)

example :
    (runSimulationRef (createRule 110) ⟨[[true]]⟩ 0 1).2 = [0, 1] := by decide

/-! ## Helper lemmas -/

theorem getD_range_map {α : Type} (f : Nat → α) (w i : Nat) (d : α) (h : i < w) :
    ((List.range w).map f).getD i d = f i := by
  simp [List.getD_eq_getElem?_getD, List.getElem?_range h]

theorem beq_one_eq_testBit (m i : Nat) : (((m >>> i) &&& 1) == 1) = m.testBit i := by
  rw [Nat.testBit_to_div_mod, Nat.and_one_is_mod, Nat.shiftRight_eq_div_pow]
  apply Bool.eq_iff_iff.mpr
  simp

theorem createRule_pattern_getD (n i : Nat) (h : i < 8) :
    (createRule n).pattern.getD i false = n.testBit i := by
  unfold createRule
  rw [getD_range_map _ _ _ _ h, beq_one_eq_testBit, Nat.testBit_mod_two_pow]
  simp [show i < 32 by omega]

theorem createRule_pattern_mod (n : Nat) :
    (createRule n).pattern = (createRule (n % 256)).pattern := by
  unfold createRule
  dsimp only
  apply List.map_congr_left
  intro i hi
  rw [List.mem_range] at hi
  rw [beq_one_eq_testBit, beq_one_eq_testBit,
    Nat.mod_eq_of_lt (lt_of_lt_of_le (Nat.mod_lt _ (by norm_num)) (by norm_num)),
    Nat.testBit_mod_two_pow, show (256 : ℕ) = 2 ^ 8 from rfl, Nat.testBit_mod_two_pow]
  simp [show i < 32 by omega, show i < 8 from hi]

/-! ## Claim theorems -/

/-- C5: for every non-negative integer `ruleNumber` and every `i` in 0..7,
`createRule(ruleNumber).pattern[i]` equals bit `i` of `ruleNumber`, so the
pattern depends only on `ruleNumber mod 256` (rule numbers ≥ 256 silently
wrap); in particular `createRule(110).pattern` is
`[false, true, true, true, false, true, true, false]`. -/
theorem createRule_pattern_spec :
    (∀ n i : Nat, i < 8 → (createRule n).pattern.getD i false = n.testBit i) ∧
    (∀ n : Nat, (createRule n).pattern = (createRule (n % 256)).pattern) ∧
    (createRule 110).pattern = [false, true, true, true, false, true, true, false] :=
  ⟨createRule_pattern_getD, createRule_pattern_mod, by decide⟩

/-- Witness for C5 at `ruleNumber := 110`, `i := 6`. -/
theorem createRule_pattern_spec_witness :
    (createRule 110).pattern.getD 6 false = Nat.testBit 110 6 :=
  createRule_pattern_spec.1 110 6 (by decide)

/-- C10: `applyRule` is total on rules produced by `createRule`: the
pattern has length 8, the neighborhood index `4*left + 2*center + right`
is below it, and the pattern lookup yields a defined boolean (the
non-null-assertion default branch is unreachable). -/
theorem applyRule_total_on_createRule (n : Nat) (l c r : Bool) :
    (createRule n).pattern.length = 8 ∧
    ((if l then 4 else 0) + (if c then 2 else 0) + (if r then 1 else 0)) <
      (createRule n).pattern.length ∧
    (createRule n).pattern[(if l then 4 else 0) + (if c then 2 else 0) +
      (if r then 1 else 0)]? = some (applyRule (createRule n) l c r) := by
  have hlen : (createRule n).pattern.length = 8 := by simp [createRule]
  have hidx : ((if l then 4 else 0) + (if c then 2 else 0) + (if r then 1 else 0)) < 8 := by
    cases l <;> cases c <;> cases r <;> norm_num
  refine ⟨hlen, by omega, ?_⟩
  rw [List.getElem?_eq_getElem (by omega)]
  simp [applyRule, List.getD_eq_getElem?_getD, List.getElem?_eq_getElem (show
    ((if l then 4 else 0) + (if c then 2 else 0) + (if r then 1 else 0)) <
      (createRule n).pattern.length by omega)]

/-- C4: `computeNextGeneration` uses fixed/dead boundaries — cell `i` of
the output is `applyRule` of the neighbors, with positions beyond the row
ends read as `false`; on a width-1 row the single output cell is
`applyRule rule false c false`. -/
theorem computeNextGeneration_fixed_boundaries (rule : Rule) (row : List Bool) :
    (∀ i, i < row.length →
      (computeNextGeneration rule row).getD i false =
        applyRule rule (if i > 0 then row.getD (i - 1) false else false)
          (row.getD i false)
          (if i < row.length - 1 then row.getD (i + 1) false else false)) ∧
    ∀ c : Bool, computeNextGeneration rule [c] = [applyRule rule false c false] := by
  constructor
  · intro i hi
    unfold computeNextGeneration
    rw [getD_range_map _ _ _ _ hi]
  · intro c
    simp [computeNextGeneration, List.range_succ]

/-- Witness for C4 at rule 110, row `[true]`, `i := 0`. -/
theorem computeNextGeneration_fixed_boundaries_witness :
    (computeNextGeneration (createRule 110) [true]).getD 0 false =
      applyRule (createRule 110) (if 0 > 0 then [true].getD (0 - 1) false else false)
        ([true].getD 0 false)
        (if 0 < [true].length - 1 then [true].getD (0 + 1) false else false) :=
  (computeNextGeneration_fixed_boundaries (createRule 110) [true]).1 0 (by decide)

theorem computeNextGeneration_length (rule : Rule) (row : List Bool) :
    (computeNextGeneration rule row).length = row.length := by
  simp [computeNextGeneration]

theorem runSimulationLoop_length (rule : Rule) (row : List Bool) (n : Nat) :
    (runSimulationLoop rule row n).length = n := by
  induction n generalizing row with
  | zero => rfl
  | succ n ih => simp [runSimulationLoop, ih]

theorem runSimulationLoop_getD (rule : Rule) (row : List Bool) (n t : Nat) (h : t < n) :
    (runSimulationLoop rule row n).getD t [] =
      (computeNextGeneration rule)^[t + 1] row := by
  induction n generalizing row t with
  | zero => omega
  | succ n ih =>
    cases t with
    | zero => simp [runSimulationLoop]
    | succ t =>
      have hrec := ih (computeNextGeneration rule row) t (by omega)
      simp only [runSimulationLoop, List.getD_cons_succ]
      rw [hrec, ← Function.iterate_succ_apply]

theorem runSimulationLoop_mem_length (rule : Rule) (row : List Bool) (n : Nat) :
    ∀ r ∈ runSimulationLoop rule row n, r.length = row.length := by
  induction n generalizing row with
  | zero => simp [runSimulationLoop]
  | succ n ih =>
    intro r hr
    simp only [runSimulationLoop, List.mem_cons] at hr
    rcases hr with h | h
    · rw [h, computeNextGeneration_length]
    · rw [ih (computeNextGeneration rule row) r h, computeNextGeneration_length]

/-- C3: `runSimulation(rule, row, steps)` returns exactly `steps + 1` rows;
row `t` (for `t ≤ steps`) is `t` successive applications of
`computeNextGeneration` to the initial row (`t = 0` being the initial row
itself), and every row has the initial row's length. -/
theorem runSimulation_grid_shape (rule : Rule) (row : List Bool) (steps : Nat) :
    (runSimulation rule row steps).length = steps + 1 ∧
    (∀ t, t ≤ steps →
      (runSimulation rule row steps).getD t [] = (computeNextGeneration rule)^[t] row) ∧
    ∀ r ∈ runSimulation rule row steps, r.length = row.length := by
  refine ⟨?_, ?_, ?_⟩
  · simp [runSimulation, runSimulationLoop_length]
  · intro t ht
    cases t with
    | zero => simp [runSimulation]
    | succ t =>
      simp only [runSimulation, List.getD_cons_succ]
      exact runSimulationLoop_getD rule row steps t (by omega)
  · intro r hr
    simp only [runSimulation, List.mem_cons] at hr
    rcases hr with h | h
    · rw [h]
    · exact runSimulationLoop_mem_length rule row steps r h

/-- Witness for C3 at rule 110, row `[true, false, false]`, `steps := 2`,
`t := 2`. -/
theorem runSimulation_grid_shape_witness :
    (runSimulation (createRule 110) [true, false, false] 2).getD 2 [] =
      (computeNextGeneration (createRule 110))^[2] [true, false, false] :=
  (runSimulation_grid_shape (createRule 110) [true, false, false] 2).2.1 2 (by decide)

theorem replicate_false_set (n i : Nat) (h : i < n) :
    (List.replicate n false).set i true =
      List.replicate i false ++ true :: List.replicate (n - i - 1) false := by
  induction n generalizing i with
  | zero => omega
  | succ n ih =>
    cases i with
    | zero => simp [List.replicate_succ]
    | succ i =>
      rw [List.replicate_succ, List.set_cons_succ, ih i (by omega),
        List.replicate_succ]
      simp [Nat.succ_sub_succ]

/-- C9: the Single Cell start condition's `generate(w)` for positive `w`
returns a boolean array of length `w` whose only `true` cell sits at index
`⌊w / 2⌋`. -/
theorem singleCell_generate_spec (w : Nat) (hw : 0 < w) :
    (singleCell.generate w).length = w ∧
    (singleCell.generate w).getD (w / 2) false = true ∧
    (singleCell.generate w).count true = 1 := by
  have hlt : w / 2 < w := Nat.div_lt_self hw (by norm_num)
  have hgen : singleCell.generate w = (List.replicate w false).set (w / 2) true := by
    simp [singleCell, jsArraySet, hlt]
  refine ⟨by simp [hgen], ?_, ?_⟩
  · rw [hgen, List.getD_eq_getElem?_getD,
      List.getElem?_eq_getElem (by simpa using hlt)]
    simp
  · rw [hgen, replicate_false_set w (w / 2) hlt]
    simp [List.count_append, List.count_cons, List.count_replicate]

/-- Witness for C9 at `w := 5`. -/
theorem singleCell_generate_spec_witness :
    (singleCell.generate 5).length = 5 ∧
    (singleCell.generate 5).getD (5 / 2) false = true ∧
    (singleCell.generate 5).count true = 1 :=
  singleCell_generate_spec 5 (by decide)

/-- C7: `getSimulation(id)` is a total lookup (never throws, the catalog —
a pure constant — is left unchanged): when it returns an entry, that entry
is in the catalog and its id equals the argument; when it returns the
not-found signal `none`, no catalog entry has that id. -/
theorem getSimulation_contract (id : String) :
    (∀ s, getSimulation id = some s → s ∈ simulations ∧ s.id = id) ∧
    (getSimulation id = none → ∀ s ∈ simulations, s.id ≠ id) := by
  constructor
  · intro s hs
    refine ⟨List.mem_of_find?_eq_some hs, ?_⟩
    have hp := List.find?_some hs
    simpa using hp
  · intro hnone s hs
    rw [getSimulation, List.find?_eq_none] at hnone
    simpa using hnone s hs

/-- Witness for C7 at `id := "rule30-single"`, whose catalog entry is
returned. -/
theorem getSimulation_contract_witness :
    ({ id := "rule30-single", name := "Rule 30 - Single Cell",
       description := "Chaotic rule used for randomness generation",
       rule := createRule 30, startConditionName := "Single Cell",
       defaultSteps := 500 } : Simulation) ∈ simulations ∧
    ({ id := "rule30-single", name := "Rule 30 - Single Cell",
       description := "Chaotic rule used for randomness generation",
       rule := createRule 30, startConditionName := "Single Cell",
       defaultSteps := 500 } : Simulation).id = "rule30-single" :=
  (getSimulation_contract "rule30-single").1 _ (by decide)

/-- C6: `setScale(s)` clamps the requested scale to `[0.1, 100]`
(`setScale(1000)` yields 100, `setScale(0.0001)` yields 0.1) and pivots
around the canvas center: the world coordinate mapped to the canvas
center, `(center - offset) / scale`, is unchanged in both axes.  The
prior view must have a nonzero scale for the world coordinate under the
center to be meaningful. -/
theorem setScale_center_pivot (rect : CanvasRect) (view : ViewState) (s : ℚ)
    (_h : view.scale ≠ 0) :
    (setScale rect view s).scale = max (1 / 10) (min 100 s) ∧
    (setScale rect view 1000).scale = 100 ∧
    (setScale rect view (1 / 10000)).scale = 1 / 10 ∧
    (rect.width / 2 - (setScale rect view s).offsetX) / (setScale rect view s).scale =
      (rect.width / 2 - view.offsetX) / view.scale ∧
    (rect.height / 2 - (setScale rect view s).offsetY) / (setScale rect view s).scale =
      (rect.height / 2 - view.offsetY) / view.scale := by
  have hns : (0 : ℚ) < max (1 / 10) (min 100 s) :=
    lt_of_lt_of_le (by norm_num) (le_max_left _ _)
  refine ⟨rfl, ?_, ?_, ?_, ?_⟩
  · show max (1 / 10) (min 100 (1000 : ℚ)) = 100
    norm_num
  · show max (1 / 10) (min 100 ((1 : ℚ) / 10000)) = 1 / 10
    norm_num
  · show (rect.width / 2 - (rect.width / 2 -
        (rect.width / 2 - view.offsetX) / view.scale * max (1 / 10) (min 100 s))) /
        max (1 / 10) (min 100 s) = (rect.width / 2 - view.offsetX) / view.scale
    rw [sub_sub_cancel, mul_div_assoc, div_self (ne_of_gt hns), mul_one]
  · show (rect.height / 2 - (rect.height / 2 -
        (rect.height / 2 - view.offsetY) / view.scale * max (1 / 10) (min 100 s))) /
        max (1 / 10) (min 100 s) = (rect.height / 2 - view.offsetY) / view.scale
    rw [sub_sub_cancel, mul_div_assoc, div_self (ne_of_gt hns), mul_one]

/-- Witness for C6 at canvas 200×100, view `(3, 4, 1)`, requested scale 7. -/
theorem setScale_center_pivot_witness :
    (setScale ⟨200, 100⟩ ⟨3, 4, 1⟩ 7).scale = max (1 / 10) (min 100 7) ∧
    (setScale ⟨200, 100⟩ ⟨3, 4, 1⟩ 1000).scale = 100 ∧
    (setScale ⟨200, 100⟩ ⟨3, 4, 1⟩ (1 / 10000)).scale = 1 / 10 ∧
    ((200 : ℚ) / 2 - (setScale ⟨200, 100⟩ ⟨3, 4, 1⟩ 7).offsetX) /
        (setScale ⟨200, 100⟩ ⟨3, 4, 1⟩ 7).scale = ((200 : ℚ) / 2 - 3) / 1 ∧
    ((100 : ℚ) / 2 - (setScale ⟨200, 100⟩ ⟨3, 4, 1⟩ 7).offsetY) /
        (setScale ⟨200, 100⟩ ⟨3, 4, 1⟩ 7).scale = ((100 : ℚ) / 2 - 4) / 1 :=
  setScale_center_pivot ⟨200, 100⟩ ⟨3, 4, 1⟩ 7 (by norm_num)

/-- C2 counterexample: starting from scale 4 ∈ [0.1, 100], `centerView` on
a 1000×1000 grid with a 100×100 canvas sets
`scale = min(100·0.9/1000, 100·0.9/1000, 10) = 0.09 < 0.1` — the renderer
does NOT keep the scale inside `[0.1, 100]` under every mutating
operation. -/
theorem centerView_scale_below_min_cex :
    (centerView ⟨100, 100⟩ 1000 1000 ⟨0, 0, 4⟩).scale = 9 / 100 ∧
    ¬ (1 / 10 ≤ (centerView ⟨100, 100⟩ 1000 1000 ⟨0, 0, 4⟩).scale ∧
       (centerView ⟨100, 100⟩ 1000 1000 ⟨0, 0, 4⟩).scale ≤ 100) := by
  have hval : (centerView ⟨100, 100⟩ 1000 1000 ⟨0, 0, 4⟩).scale = 9 / 100 := by
    norm_num [centerView]
  exact ⟨hval, by rw [hval]; norm_num⟩

/-- C2 amended: `setScale` and wheel zoom clamp the scale into
`[0.1, 100]` from any prior state, and pan never touches the scale (so a
scale in `[0.1, 100]` stays there); `centerView` is a no-op on an empty
grid and otherwise only bounds the scale above by the max fit-scale 10 —
it has no lower clamp and can leave the scale below 0.1 (see the
counterexample). -/
theorem scale_ops_clamped (rect : CanvasRect) (view : ViewState)
    (hlo : 1 / 10 ≤ view.scale) (hhi : view.scale ≤ 100) :
    (∀ s : ℚ, 1 / 10 ≤ (setScale rect view s).scale ∧
      (setScale rect view s).scale ≤ 100) ∧
    (∀ mouseX mouseY deltaY : ℚ, 1 / 10 ≤ (handleWheel view mouseX mouseY deltaY).scale ∧
      (handleWheel view mouseX mouseY deltaY).scale ≤ 100) ∧
    (∀ dx dy : ℚ, 1 / 10 ≤ (handleMouseMove view dx dy).scale ∧
      (handleMouseMove view dx dy).scale ≤ 100) ∧
    (∀ gw gh : Nat, (gw = 0 ∨ gh = 0 → centerView rect gw gh view = view) ∧
      (0 < gw → 0 < gh → (centerView rect gw gh view).scale ≤ 10)) := by
  refine ⟨?_, ?_, ?_, ?_⟩
  · intro s
    exact ⟨le_max_left _ _, max_le (by norm_num) (min_le_left _ _)⟩
  · intro mouseX mouseY deltaY
    exact ⟨le_max_left _ _, max_le (by norm_num) (min_le_left _ _)⟩
  · intro dx dy
    exact ⟨hlo, hhi⟩
  · intro gw gh
    constructor
    · intro hempty
      simp [centerView, hempty]
    · intro hgw hgh
      have hne : ¬ (gw = 0 ∨ gh = 0) := by omega
      simp only [centerView, if_neg hne]
      exact min_le_right _ _

/-- Witness for C2 (amended) at canvas 200×100, view `(3, 4, 1)`. -/
theorem scale_ops_clamped_witness :
    1 / 10 ≤ (setScale ⟨200, 100⟩ ⟨3, 4, 1⟩ 500).scale ∧
    (setScale ⟨200, 100⟩ ⟨3, 4, 1⟩ 500).scale ≤ 100 :=
  (scale_ops_clamped ⟨200, 100⟩ ⟨3, 4, 1⟩ (by norm_num) (by norm_num)).1 500

theorem heap_write_read (h : Heap) (r : Nat) (v : List Bool)
    (hr : r < h.arrays.length) :
    (h.write r v).read r = v := by
  simp [Heap.write, Heap.read, List.getD_eq_getElem?_getD,
    List.getElem?_eq_getElem (show r < (h.arrays.set r v).length by simp [hr])]

theorem runSimulationRefLoop_heap_grows (rule : Rule) (h : Heap) (c n : Nat) :
    h.arrays.length ≤ (runSimulationRefLoop rule h c n).1.arrays.length := by
  induction n generalizing h c with
  | zero => simp [runSimulationRefLoop]
  | succ n ih =>
    simp only [runSimulationRefLoop, Heap.alloc]
    refine le_trans ?_ (ih _ _)
    simp

/-- C1 counterexample: run rule 110 from the single-cell row `[true]`
(the caller's array, reference 0) for one step; the grid's row 0 reads
`[true]`, but after the caller mutates its own array to `[false]` the
grid's row 0 reads `[false]` — external mutation after the call DOES
change the grid's row 0, because `grid = [initialRow]` stores the
reference, not a copy. -/
theorem runSimulation_row0_copy_cex :
    (runSimulationRef (createRule 110) ⟨[[true]]⟩ 0 1).1.read
        ((runSimulationRef (createRule 110) ⟨[[true]]⟩ 0 1).2.getD 0 7) = [true] ∧
    ((runSimulationRef (createRule 110) ⟨[[true]]⟩ 0 1).1.write 0 [false]).read
        ((runSimulationRef (createRule 110) ⟨[[true]]⟩ 0 1).2.getD 0 7) = [false] := by
  decide

/-- C1 amended: row 0 of the grid returned by `runSimulation` is the
caller's `initialRow` array itself (stored by reference, not copied), so
mutating the caller's array after the call IS visible through the grid's
row 0: writing `v` over the initial row makes the grid's first reference
read `v`. -/
theorem runSimulationRef_row0_aliased (rule : Rule) (h : Heap) (r0 steps : Nat)
    (v : List Bool) (hr : r0 < h.arrays.length) :
    (runSimulationRef rule h r0 steps).2.head? = some r0 ∧
    ((runSimulationRef rule h r0 steps).1.write r0 v).read r0 = v := by
  constructor
  · rfl
  · apply heap_write_read
    simp only [runSimulationRef]
    exact lt_of_lt_of_le hr (runSimulationRefLoop_heap_grows rule h r0 steps)

/-- Witness for C1 (amended) at rule 110, heap holding the caller's
`[true]` at reference 0, two steps, overwriting value `[false]`. -/
theorem runSimulationRef_row0_aliased_witness :
    (runSimulationRef (createRule 110) ⟨[[true]]⟩ 0 2).2.head? = some 0 ∧
    ((runSimulationRef (createRule 110) ⟨[[true]]⟩ 0 2).1.write 0 [false]).read 0 =
      [false] :=
  runSimulationRef_row0_aliased (createRule 110) ⟨[[true]]⟩ 0 2 [false] (by decide)

/-- C8 counterexample: the zero-height check `grid.length === 0` does not
catch a zero-width grid — `setGrid([[]])` (one row of width 0) records
`gridHeight = 1` instead of clearing the tracked dimensions, runs the
upload-and-render tail instead of returning early, and leaves
`getGridSize()` at `(0, 1) ≠ (0, 0)`. -/
theorem setGrid_zero_width_cex :
    getGridSize (setGrid ⟨5, 7, true, ⟨0, 0, 4⟩⟩ [[]]).1 = (0, 1) ∧
    getGridSize (setGrid ⟨5, 7, true, ⟨0, 0, 4⟩⟩ [[]]).1 ≠ (0, 0) ∧
    (setGrid ⟨5, 7, true, ⟨0, 0, 4⟩⟩ [[]]).2 = true := by
  refine ⟨rfl, ?_, rfl⟩
  simp [setGrid, getGridSize]

/-- C8 amended: `setGrid` is a graceful no-op on a zero-height grid
(`grid.length === 0`, i.e. `[]`): it clears both tracked dimensions and
returns before the texture upload and the draw; afterwards `render()`
issues no draw (and, like every operation here, cannot throw — all
operations are total), `centerView()` leaves the state unchanged, and
`getGridSize()` is `(0, 0)`.  A nonzero-height grid of zero-width rows
instead keeps `gridHeight = grid.length` (see the counterexample). -/
theorem setGrid_empty_grid_spec (st : RendererState) (rect : CanvasRect) :
    setGrid st [] = ({ st with gridWidth := 0, gridHeight := 0 }, false) ∧
    getGridSize (setGrid st []).1 = (0, 0) ∧
    renderDraws (setGrid st []).1 = false ∧
    centerViewState rect (setGrid st []).1 = (setGrid st []).1 := by
  refine ⟨rfl, rfl, rfl, ?_⟩
  simp [setGrid, centerViewState, centerView]

end Simulations
